import Mathlib

/-!
Verification development for the DASHBOARD-FACTU record reconciliation and
normalization pipeline (data/processors.py, data/validators.py,
service/rips_service.py, utils/date_helpers.py, config/settings.py).

Modelling conventions:
- A table column is modelled at pandas object dtype: each cell is an
  `Option String`, with `none` standing for the missing value NaN.  All
  columns relevant to the verified claims (identifiers, names, states) are
  text columns in the pipeline.
- `astype(str)` renders NaN as the string "nan", exactly as pandas does for
  float NaN missing values in an object column.
- `pd.to_datetime(_, errors="coerce")` and `.dt.date` are kept abstract as
  function parameters (`toDatetime`, `dtDate`): no verified claim depends on
  the concrete date semantics, only on which column they touch.
- Python `str.upper` agrees with `Char.toUpper` on ASCII data, and
  `str.strip` removes leading/trailing whitespace; both are modelled on the
  character list of the string.
- Functions whose mutation behaviour is claimed (the two identity-resolution
  passes) are translated in state-passing style: the translation returns,
  besides the result, the final state of the DataFrame objects the caller
  passed in, so that in-place mutation performed by the Python code is
  observable in the model.
-/

namespace DashboardFactu

/-- A cell of a pandas object-dtype column; `none` is the missing value NaN. -/
abbrev Cell := Option String

/-- A row of a DataFrame: an association list from column name to cell. -/
abbrev Row := List (String × Cell)

/-- Reading a cell: a column absent from the row reads as missing (NaN). -/
def rowGet : Row → String → Cell
  | [], _ => none
  | p :: r, c => if p.1 = c then p.2 else rowGet r c

/-- The column names bound in a row. -/
def rowKeys (r : Row) : List String :=
  r.map Prod.fst

/-- Writing a cell: replace the binding when the column exists in the row,
otherwise append a new binding (pandas column assignment creates the column). -/
def rowSet (r : Row) (c : String) (v : Cell) : Row :=
  if c ∈ rowKeys r then r.map (fun p => if p.1 = c then (c, v) else p)
  else r ++ [(c, v)]

/-- Deleting a column from a row (pandas `drop(columns=...)`). -/
def rowErase (r : Row) (c : String) : Row :=
  r.filter (fun p => p.1 ≠ c)

/-- A pandas DataFrame: a column schema and a list of rows. -/
structure DataFrame where
  cols : List String
  rows : List Row
deriving DecidableEq

/-- Pandas `df.empty`: true when either axis has length zero. -/
def dfEmpty (d : DataFrame) : Bool :=
  d.rows.isEmpty || d.cols.isEmpty

/-- Column assignment `df[c] = f(row)`: rewrites the cell of column `c` in
every row, adding `c` to the schema when absent. -/
def setCol (d : DataFrame) (c : String) (f : Row → Cell) : DataFrame :=
  { cols := if c ∈ d.cols then d.cols else d.cols ++ [c],
    rows := d.rows.map (fun r => rowSet r c (f r)) }

/-- Boolean-mask row selection `df[mask]`. -/
def filterRows (d : DataFrame) (p : Row → Bool) : DataFrame :=
  { d with rows := d.rows.filter p }

/-- Pandas `df.drop(columns=[c])`. -/
def dropCol (d : DataFrame) (c : String) : DataFrame :=
  { cols := d.cols.filter (fun x => x ≠ c),
    rows := d.rows.map (fun r => rowErase r c) }

/-- Whitespace recognised by Python `str.strip`. -/
def isSpaceChar (ch : Char) : Bool :=
  ch = ' ' || ch = '\t' || ch = '\n' || ch = '\r'

/-- Python `str.strip`: drop leading and trailing whitespace. -/
def strTrim (s : String) : String :=
  String.mk (((s.toList.dropWhile isSpaceChar).reverse.dropWhile isSpaceChar).reverse)

/-- Python `str.upper` (ASCII range, which is all the pipeline compares). -/
def strUpper (s : String) : String :=
  String.mk (s.toList.map Char.toUpper)

/-- The normalization `.str.strip().str.upper()` applied throughout the code. -/
def strNorm (s : String) : String :=
  strUpper (strTrim s)

/-- Pandas `astype(str)` on one cell: NaN is rendered as the string "nan". -/
def astypeStr (c : Cell) : String :=
  match c with
  | some s => s
  | none => "nan"

/-- The cell content after `astype(str).str.strip().str.upper()`. -/
def normCellStr (c : Cell) : String :=
  strNorm (astypeStr c)

/-- A cell after `astype(str).str.strip().str.upper()`: always non-null. -/
def normCell (c : Cell) : Cell :=
  some (normCellStr c)

/-- Pandas `series.isin(vs)` on one cell: NaN is in no list of strings. -/
def cellIsin (c : Cell) (vs : List String) : Bool :=
  match c with
  | some s => decide (s ∈ vs)
  | none => false

/-- Pandas `series == s` for a string scalar on one cell: NaN compares false. -/
def cellEq (c : Cell) (s : String) : Bool :=
  decide (c = some s)

/-! Constants from config/settings.py. -/

def ESTADOS_VALIDOS_LEGALIZACIONES : List String := ["ACTIVA"]

def ESTADOS_VALIDOS_RIPS : List String := ["COMPLETO"]

def ESTADOS_VALIDOS_FACTURACION_ELECTRONICA : List String := ["ACTIVO"]

def CONVENIO_PPL : String := "Patrimonio Autonomo Fondo Atención Salud PPL 2024"

def COLUMN_NAMES_usuario : List String := ["USUARIO", "USUARIO FACTURÓ", "USUARIO_FACTURO"]

def COLUMN_NAMES_fecha : List String :=
  ["FECHA_REAL", "FECHA_FACTURA", "FECHA", "FECHA RADICACIÓN", "FECHA LEGALIZACIÓN"]

/-! Validators from data/validators.py. -/

/-- validators.validate_required_columns: a null or empty DataFrame is invalid
with the full required list; otherwise the missing columns are reported. -/
def validate_required_columns (df : Option DataFrame) (required : List String) :
    Bool × List String :=
  match df with
  | none => (false, required)
  | some d =>
    if dfEmpty d then (false, required)
    else
      let missing := required.filter (fun c => decide (c ∉ d.cols))
      (missing.isEmpty, missing)

/-- validators.find_column_variant: first variant present among the columns;
`none` when the DataFrame is null or empty. -/
def find_column_variant (df : Option DataFrame) (variants : List String) :
    Option String :=
  match df with
  | none => none
  | some d =>
    if dfEmpty d then none
    else variants.find? (fun v => decide (v ∈ d.cols))

/-- validators.validate_legalizaciones. -/
def validate_legalizaciones (df : Option DataFrame) : Bool × String :=
  let required := ["ESTADO", "CONVENIO"]
  let usuarioCol := find_column_variant df COLUMN_NAMES_usuario
  let fechaCol := find_column_variant df COLUMN_NAMES_fecha
  if usuarioCol.isNone || fechaCol.isNone then
    (false, "Faltan columnas de USUARIO o FECHA")
  else
    let vr := validate_required_columns df required
    if !vr.1 then (false, "Faltan columnas: " ++ String.intercalate ", " vr.2)
    else (true, "Validación exitosa")

/-! Date helper from utils/date_helpers.py, with the datetime parser abstract. -/

/-- date_helpers.parse_date_column: rewrite the date column through the
(abstract) `pd.to_datetime(..., errors="coerce")`; no-op when absent. -/
def parse_date_column (d : DataFrame) (c : String) (toDatetime : Cell → Cell) :
    DataFrame :=
  if c ∈ d.cols then setCol d c (fun r => toDatetime (rowGet r c)) else d

/-! Processors from data/processors.py. -/

/-- The date-parse plus state-normalize-and-filter stage of
processors.process_legalizaciones (lines 34-40): the "input after state
filter" of the category split. -/
def legalizaciones_filtered (toDatetime : Cell → Cell) (d : DataFrame)
    (estadoColumn fechaColumn : String) : DataFrame :=
  let d1 := parse_date_column d fechaColumn toDatetime
  if estadoColumn ∈ d1.cols then
    let dn := setCol d1 estadoColumn (fun r => normCell (rowGet r estadoColumn))
    filterRows dn (fun r => cellIsin (rowGet r estadoColumn) ESTADOS_VALIDOS_LEGALIZACIONES)
  else d1

/-- processors.process_legalizaciones: state filter, then split by the
CONVENIO sentinel; both partitions are `none` when the convenio column is
absent or the input is null/empty. -/
def process_legalizaciones (toDatetime : Cell → Cell) (df : Option DataFrame)
    (estadoColumn fechaColumn convenioColumn : String) :
    Option DataFrame × Option DataFrame :=
  match df with
  | none => (none, none)
  | some d =>
    if dfEmpty d then (none, none)
    else
      let d2 := legalizaciones_filtered toDatetime d estadoColumn fechaColumn
      if convenioColumn ∈ d2.cols then
        (some (filterRows d2 (fun r => cellEq (rowGet r convenioColumn) CONVENIO_PPL)),
         some (filterRows d2 (fun r => !cellEq (rowGet r convenioColumn) CONVENIO_PPL)))
      else (none, none)

/-- The date-parse plus state-normalize-and-filter stage of
processors.process_rips (lines 69-74). -/
def rips_filtered (toDatetime : Cell → Cell) (d : DataFrame)
    (estadoColumn fechaColumn : String) : DataFrame :=
  let d1 := parse_date_column d fechaColumn toDatetime
  if estadoColumn ∈ d1.cols then
    let dn := setCol d1 estadoColumn (fun r => normCell (rowGet r estadoColumn))
    filterRows dn (fun r => cellIsin (rowGet r estadoColumn) ESTADOS_VALIDOS_RIPS)
  else d1

/-- processors.process_rips. -/
def process_rips (toDatetime : Cell → Cell) (df : Option DataFrame)
    (estadoColumn fechaColumn : String) : Option DataFrame :=
  match df with
  | none => none
  | some d =>
    if dfEmpty d then none
    else some (rips_filtered toDatetime d estadoColumn fechaColumn)

/-- The date-parse plus state-normalize-and-filter stage of
processors.process_facturacion_electronica (lines 115-120). -/
def fe_filtered (toDatetime : Cell → Cell) (d : DataFrame)
    (estadoColumn fechaColumn : String) : DataFrame :=
  let d1 := parse_date_column d fechaColumn toDatetime
  if estadoColumn ∈ d1.cols then
    let dn := setCol d1 estadoColumn (fun r => normCell (rowGet r estadoColumn))
    filterRows dn (fun r => cellIsin (rowGet r estadoColumn) ESTADOS_VALIDOS_FACTURACION_ELECTRONICA)
  else d1

/-- processors.process_facturacion_electronica. -/
def process_facturacion_electronica (toDatetime : Cell → Cell) (df : Option DataFrame)
    (estadoColumn fechaColumn : String) : Option DataFrame :=
  match df with
  | none => none
  | some d =>
    if dfEmpty d then none
    else some (fe_filtered toDatetime d estadoColumn fechaColumn)

/-! Reference-map construction, shared shape of both identity-resolution
passes: `dropna(subset=[k, v]).drop_duplicates(subset=[k]).set_index(k)[v]`. -/

/-- Pandas `dropna(subset=[c1, c2])`: keep rows with both cells non-null. -/
def dropnaSubset2 (rows : List Row) (c1 c2 : String) : List Row :=
  rows.filter (fun r => (rowGet r c1).isSome && (rowGet r c2).isSome)

/-- Pandas `drop_duplicates(subset=[keyCol])` with the default keep="first":
a row survives when its key cell was not seen on an earlier row. -/
def dropDuplicatesFirst (keyCol : String) (seen : List Cell) : List Row → List Row
  | [] => []
  | r :: rs =>
    if rowGet r keyCol ∈ seen then dropDuplicatesFirst keyCol seen rs
    else r :: dropDuplicatesFirst keyCol (rowGet r keyCol :: seen) rs

/-- Extraction of the (key, value) pairs of `set_index(keyCol)[valCol]`,
restricted to rows where both cells are non-null. -/
def seriesMap (rows : List Row) (keyCol valCol : String) : List (String × String) :=
  rows.filterMap (fun r =>
    match rowGet r keyCol, rowGet r valCol with
    | some k, some v => some (k, v)
    | _, _ => none)

/-- The key-to-value reference map built by both passes:
`df.dropna(subset=[k, v]).drop_duplicates(subset=[k]).set_index(k)[v]`. -/
def buildKeyValueMap (d : DataFrame) (keyCol valCol : String) :
    List (String × String) :=
  seriesMap (dropDuplicatesFirst keyCol [] (dropnaSubset2 d.rows keyCol valCol)) keyCol valCol

/-- Pandas `series.map(referenceSeries)` lookup of one key: the value at the
first occurrence of the key. -/
def mapLookup (m : List (String × String)) (k : String) : Option String :=
  match m with
  | [] => none
  | p :: rest => if p.1 = k then some p.2 else mapLookup rest k

/-- Normalize the cells of one column:
`df[c] = df[c].astype(str).str.strip().str.upper()`. -/
def normColCells (d : DataFrame) (c : String) : DataFrame :=
  setCol d c (fun r => normCell (rowGet r c))

/-- The DOCUMENTO-to-NOMBRE reference map of rips_service.cruzar_documento_a_nombre
(lines 123-143): normalize both columns on a copy, then dropna,
drop_duplicates keep-first, set_index. -/
def mapa_nombre_of (dfFacturadores : DataFrame) : List (String × String) :=
  let dfNorm := normColCells (normColCells dfFacturadores "DOCUMENTO") "NOMBRE"
  buildKeyValueMap dfNorm "DOCUMENTO" "NOMBRE"

/-- The normalization loop of processors.merge_facturacion_with_electronica
(lines 276-279): every (object) column of the frame is normalized in place. -/
def normAllCols (d : DataFrame) : DataFrame :=
  d.cols.foldl (fun acc c => normColCells acc c) d

/-- Outcome of an identity-resolution pass in state-passing style: the
returned frame, plus the final states of the two DataFrame objects the
caller passed in (observing any in-place mutation). -/
structure PassResult where
  result : Option DataFrame
  targetFinal : Option DataFrame
  refFinal : Option DataFrame
deriving DecidableEq

/-- rips_service.cruzar_documento_a_nombre (Pass B, Document to Name).
All writes land on copies (`df_rips.copy()`, `df_facturadores.copy()`), so
both argument objects are returned unchanged. -/
def cruzar_documento_a_nombre (dfRips dfFacturadores : Option DataFrame) :
    PassResult :=
  match dfRips with
  | none => ⟨none, none, dfFacturadores⟩
  | some dr =>
    if dfEmpty dr then ⟨some dr, some dr, dfFacturadores⟩
    else
      match dfFacturadores with
      | none => ⟨some dr, some dr, none⟩
      | some dfF =>
        if dfEmpty dfF then ⟨some dr, some dr, some dfF⟩
        else
          match find_column_variant (some dr) COLUMN_NAMES_usuario with
          | none => ⟨some dr, some dr, some dfF⟩
          | some usuarioCol =>
            if "DOCUMENTO" ∉ dfF.cols ∨ "NOMBRE" ∉ dfF.cols then
              ⟨some dr, some dr, some dfF⟩
            else
              let mapaNombre := mapa_nombre_of dfF
              let dr1 := normColCells dr usuarioCol
              let dr2 := setCol dr1 usuarioCol (fun r =>
                match rowGet r usuarioCol with
                | some s =>
                  match mapLookup mapaNombre s with
                  | some n => some n
                  | none => some s
                | none => none)
              ⟨some dr2, some dr, some dfF⟩

/-- The ACTIVO-state restriction of the reference table inside
processors.merge_facturacion_with_electronica (lines 281-286): pick the
ESTADO (or Estado) column and keep only rows in state ACTIVO; pass the frame
through when neither column exists. -/
def fe_activa (dElec1 : DataFrame) : DataFrame :=
  let estadoCol := if "ESTADO" ∈ dElec1.cols then "ESTADO" else "Estado"
  if estadoCol ∈ dElec1.cols then
    filterRows dElec1 (fun r => cellEq (rowGet r estadoCol) "ACTIVO")
  else dElec1

/-- processors.merge_facturacion_with_electronica (Pass A, Invoice to Agent).
The target is copied (`df_facturacion.copy()`) but the normalization loop
iterates over `[df_result, df_fact_elec]` and assigns columns of
`df_fact_elec` in place: the reference object the caller passed in comes
back normalized. -/
def merge_facturacion_with_electronica (dfFacturacion dfFactElec : Option DataFrame) :
    PassResult :=
  match dfFacturacion with
  | none => ⟨none, none, dfFactElec⟩
  | some dFact =>
    if dfEmpty dFact then ⟨some dFact, some dFact, dfFactElec⟩
    else
      match dfFactElec with
      | none => ⟨some dFact, some dFact, none⟩
      | some dElec =>
        if dfEmpty dElec then ⟨some dFact, some dFact, some dElec⟩
        else
          let dResult1 := normAllCols dFact
          let dElec1 := normAllCols dElec
          let dElecActiva := fe_activa dElec1
          let dResult2 :=
            if "FACTURA" ∈ dElecActiva.cols ∧ "USUARIO" ∈ dElecActiva.cols then
              let mapaUsuario := buildKeyValueMap dElecActiva "FACTURA" "USUARIO"
              if "NRO_FACTURACLI" ∈ dResult1.cols then
                setCol dResult1 "USUARIO" (fun r =>
                  match rowGet r "NRO_FACTURACLI" with
                  | some s => mapLookup mapaUsuario s
                  | none => none)
              else dResult1
            else dResult1
          ⟨some dResult2, some dFact, some dElec1⟩

/-- Pandas `series.unique()` order: first occurrence wins; `seen` accumulates
the values already emitted. -/
def uniqueFirst {α : Type} [DecidableEq α] (seen : List α) : List α → List α
  | [] => []
  | a :: l =>
    if a ∈ seen then uniqueFirst seen l
    else a :: uniqueFirst (a :: seen) l

/-- processors.filtrar_por_facturadores (Pass C, roster-membership filter). -/
def filtrar_por_facturadores (df dfFacturadores : Option DataFrame)
    (columnaUsuario : Option String) (tipoComparacion : String) : Option DataFrame :=
  match df with
  | none => none
  | some d =>
    if dfEmpty d then some d
    else
      match dfFacturadores with
      | none => some d
      | some f =>
        if dfEmpty f then some d
        else
          match columnaUsuario with
          | none => some d
          | some cu =>
            if cu ∉ d.cols then some d
            else if tipoComparacion ∉ f.cols then some d
            else
              let valoresValidos :=
                uniqueFirst []
                  ((f.rows.filterMap (fun r => rowGet r tipoComparacion)).map strNorm)
              let d2 := setCol d "_usuario_norm" (fun r => normCell (rowGet r cu))
              let d3 := filterRows d2
                (fun r => cellIsin (rowGet r "_usuario_norm") valoresValidos)
              some (dropCol d3 "_usuario_norm")

/-! Aggregator from processors.aggregate_by_user. -/

/-- Lexicographic comparison of character lists (non-strict). -/
def charListLeB : List Char → List Char → Bool
  | [], _ => true
  | _ :: _, [] => false
  | a :: as, b :: bs =>
    if a.toNat < b.toNat then true
    else if b.toNat < a.toNat then false
    else charListLeB as bs

/-- Lexicographic comparison of character lists (strict). -/
def charListLtB : List Char → List Char → Bool
  | [], [] => false
  | [], _ :: _ => true
  | _ :: _, [] => false
  | a :: as, b :: bs =>
    if a.toNat < b.toNat then true
    else if b.toNat < a.toNat then false
    else charListLtB as bs

/-- The string order by which pandas sorts group keys. -/
def strLeKey (a b : String) : Prop :=
  charListLeB a.toList b.toList = true

instance : DecidableRel strLeKey := fun a b => by
  unfold strLeKey
  infer_instance

/-- Lexicographic order on (agent, day) group keys, as pandas sorts them. -/
def pairLeKey (p q : String × String) : Prop :=
  (if p.1 = q.1 then charListLeB p.2.toList q.2.toList
   else charListLtB p.1.toList q.1.toList) = true

instance : DecidableRel pairLeKey := fun p q => by
  unfold pairLeKey
  infer_instance

/-- Pandas `groupby(keys).size()`: rows with a null key are dropped, the
distinct keys are sorted, and each carries its number of occurrences. -/
def groupSorted {α : Type} [DecidableEq α] (r : α → α → Prop) [DecidableRel r]
    (ks : List α) : List (α × Nat) :=
  ((uniqueFirst [] ks).insertionSort r).map (fun k => (k, ks.count k))

/-- The non-null (usuario) grouping keys of a frame, in row order. -/
def userKeysOf (d : DataFrame) (usuarioColumn : String) : List String :=
  d.rows.filterMap (fun r => rowGet r usuarioColumn)

/-- The non-null (usuario, day) grouping keys of a frame, in row order; a row
whose usuario or date cell is null carries no key (pandas groupby drops it). -/
def userDateKeysOf (dtDate : String → String) (d : DataFrame)
    (usuarioColumn dateColumn : String) : List (String × String) :=
  d.rows.filterMap (fun r =>
    match rowGet r usuarioColumn, (rowGet r dateColumn).map dtDate with
    | some u, some f => some (u, f)
    | _, _ => none)

/-- Output of processors.aggregate_by_user: one count row per agent, or per
(agent, day) pair when grouping by date. -/
inductive AggResult where
  | byUser (l : List (String × Nat))
  | byUserDate (l : List ((String × String) × Nat))
deriving DecidableEq

/-- processors.aggregate_by_user, with `.dt.date` abstract as `dtDate`. -/
def aggregate_by_user (dtDate : String → String) (df : Option DataFrame)
    (usuarioColumn : String) (dateColumn : Option String) (groupByDate : Bool) :
    Option AggResult :=
  match df with
  | none => none
  | some d =>
    if dfEmpty d = true ∨ usuarioColumn ∉ d.cols then none
    else
      match dateColumn with
      | some dc =>
        if groupByDate = true ∧ dc ≠ "" ∧ dc ∈ d.cols then
          some (AggResult.byUserDate
            (groupSorted pairLeKey (userDateKeysOf dtDate d usuarioColumn dc)))
        else
          some (AggResult.byUser (groupSorted strLeKey (userKeysOf d usuarioColumn)))
      | none =>
        some (AggResult.byUser (groupSorted strLeKey (userKeysOf d usuarioColumn)))

/-! Basic lemmas about rows. -/

theorem rowGet_map_replace_ne (r : Row) (c c2 : String) (v : Cell) (h : c2 ≠ c) :
    rowGet (r.map (fun p => if p.1 = c then (c, v) else p)) c2 = rowGet r c2 := by
  induction r with
  | nil => rfl
  | cons p r ih =>
    by_cases hp : p.1 = c
    · have h1 : ¬ c = c2 := fun he => h he.symm
      have h2 : ¬ p.1 = c2 := by rw [hp]; exact h1
      simp [rowGet, hp, h1, h2, ih]
    · by_cases hp2 : p.1 = c2
      · simp [rowGet, hp, hp2, h]
      · simp [rowGet, hp, hp2, ih]

theorem rowGet_map_replace_self (r : Row) (c : String) (v : Cell)
    (h : c ∈ rowKeys r) :
    rowGet (r.map (fun p => if p.1 = c then (c, v) else p)) c = v := by
  induction r with
  | nil => simp [rowKeys] at h
  | cons p r ih =>
    by_cases hp : p.1 = c
    · simp [rowGet, hp]
    · have hr : c ∈ rowKeys r := by
        simp only [rowKeys, List.map_cons, List.mem_cons] at h
        rcases h with h | h
        · exact absurd h.symm hp
        · exact h
      simp [rowGet, hp, ih hr]

theorem rowGet_append_single_self (r : Row) (c : String) (v : Cell) :
    rowGet (r ++ [(c, v)]) c = if c ∈ rowKeys r then rowGet r c else v := by
  induction r with
  | nil => simp [rowGet, rowKeys]
  | cons p r ih =>
    by_cases hp : p.1 = c
    · simp [rowGet, rowKeys, hp]
    · have h2 : ¬ c = p.1 := fun he => hp he.symm
      by_cases hm : c ∈ List.map Prod.fst r
      · simp [rowGet, rowKeys, hp, h2, ih, hm]
      · simp [rowGet, rowKeys, hp, h2, ih, hm]

theorem rowGet_append_single_ne (r : Row) (c c2 : String) (v : Cell) (h : c2 ≠ c) :
    rowGet (r ++ [(c, v)]) c2 = rowGet r c2 := by
  induction r with
  | nil =>
    have : ¬ c = c2 := fun he => h he.symm
    simp [rowGet, this]
  | cons p r ih =>
    by_cases hp : p.1 = c2
    · simp [rowGet, hp]
    · simp [rowGet, hp, ih]

theorem rowGet_rowSet_self (r : Row) (c : String) (v : Cell) :
    rowGet (rowSet r c v) c = v := by
  unfold rowSet
  by_cases h : c ∈ rowKeys r
  · simp only [h, if_true]
    exact rowGet_map_replace_self r c v h
  · simp only [h, if_false]
    rw [rowGet_append_single_self]
    simp [h]

theorem rowGet_rowSet_ne (r : Row) (c c2 : String) (v : Cell) (h : c2 ≠ c) :
    rowGet (rowSet r c v) c2 = rowGet r c2 := by
  unfold rowSet
  by_cases hm : c ∈ rowKeys r
  · simp only [hm, if_true]
    exact rowGet_map_replace_ne r c c2 v h
  · simp only [hm, if_false]
    exact rowGet_append_single_ne r c c2 v h

theorem rowSet_eq_append (r : Row) (c : String) (v : Cell) (h : c ∉ rowKeys r) :
    rowSet r c v = r ++ [(c, v)] := by
  simp [rowSet, h]

theorem keys_ne_of_not_mem (r : Row) (c : String) (h : c ∉ rowKeys r) :
    ∀ p ∈ r, p.1 ≠ c := by
  intro p hp he
  exact h (by simpa [rowKeys, he] using List.mem_map_of_mem Prod.fst hp)

theorem rowErase_append_single (r : Row) (c : String) (v : Cell)
    (h : c ∉ rowKeys r) : rowErase (r ++ [(c, v)]) c = r := by
  unfold rowErase
  rw [List.filter_append]
  have h1 : r.filter (fun p => p.1 ≠ c) = r :=
    List.filter_eq_self.mpr (fun p hp => by simpa using keys_ne_of_not_mem r c h p hp)
  have h2 : ([(c, v)] : Row).filter (fun p => p.1 ≠ c) = [] := by simp
  rw [h1, h2, List.append_nil]

/-! Column-schema preservation lemmas. -/

theorem cols_setCol_of_mem (d : DataFrame) (c : String) (f : Row → Cell)
    (h : c ∈ d.cols) : (setCol d c f).cols = d.cols := by
  simp [setCol, h]

theorem rows_setCol (d : DataFrame) (c : String) (f : Row → Cell) :
    (setCol d c f).rows = d.rows.map (fun r => rowSet r c (f r)) := rfl

theorem cols_filterRows (d : DataFrame) (p : Row → Bool) :
    (filterRows d p).cols = d.cols := rfl

theorem rows_filterRows (d : DataFrame) (p : Row → Bool) :
    (filterRows d p).rows = d.rows.filter p := rfl

theorem cols_parse_date_column (d : DataFrame) (c : String) (td : Cell → Cell) :
    (parse_date_column d c td).cols = d.cols := by
  unfold parse_date_column
  by_cases h : c ∈ d.cols
  · simp only [h, if_true]
    exact cols_setCol_of_mem d c _ h
  · simp only [h, if_false]

theorem cols_legalizaciones_filtered (td : Cell → Cell) (d : DataFrame)
    (e f : String) : (legalizaciones_filtered td d e f).cols = d.cols := by
  unfold legalizaciones_filtered
  by_cases h : e ∈ (parse_date_column d f td).cols
  · simp only [h, if_true, cols_filterRows]
    rw [cols_setCol_of_mem _ _ _ h, cols_parse_date_column]
  · simp only [h, if_false]
    exact cols_parse_date_column d f td

theorem cols_rips_filtered (td : Cell → Cell) (d : DataFrame)
    (e f : String) : (rips_filtered td d e f).cols = d.cols := by
  unfold rips_filtered
  by_cases h : e ∈ (parse_date_column d f td).cols
  · simp only [h, if_true, cols_filterRows]
    rw [cols_setCol_of_mem _ _ _ h, cols_parse_date_column]
  · simp only [h, if_false]
    exact cols_parse_date_column d f td

theorem cols_fe_filtered (td : Cell → Cell) (d : DataFrame)
    (e f : String) : (fe_filtered td d e f).cols = d.cols := by
  unfold fe_filtered
  by_cases h : e ∈ (parse_date_column d f td).cols
  · simp only [h, if_true, cols_filterRows]
    rw [cols_setCol_of_mem _ _ _ h, cols_parse_date_column]
  · simp only [h, if_false]
    exact cols_parse_date_column d f td

theorem cols_normColCells_of_mem (d : DataFrame) (c : String)
    (h : c ∈ d.cols) : (normColCells d c).cols = d.cols :=
  cols_setCol_of_mem d c _ h

theorem cols_foldl_normColCells (l : List String) (d : DataFrame)
    (h : ∀ c ∈ l, c ∈ d.cols) :
    (l.foldl (fun acc c => normColCells acc c) d).cols = d.cols := by
  induction l generalizing d with
  | nil => rfl
  | cons c l ih =>
    have hc : c ∈ d.cols := h c (by simp)
    have step : (normColCells d c).cols = d.cols := cols_normColCells_of_mem d c hc
    simp only [List.foldl_cons]
    rw [ih (normColCells d c) (fun c2 hc2 => by rw [step]; exact h c2 (by simp [hc2]))]
    exact step

theorem cols_normAllCols (d : DataFrame) : (normAllCols d).cols = d.cols := by
  unfold normAllCols
  exact cols_foldl_normColCells d.cols d (fun c hc => hc)

/-! List helper: a filter and its complement partition the list. -/

theorem length_filter_add_length_filter_not {α : Type} (l : List α) (p : α → Bool) :
    (l.filter p).length + (l.filter (fun a => !(p a))).length = l.length := by
  induction l with
  | nil => rfl
  | cons a l ih =>
    cases h : p a
    · simp only [List.filter_cons, h]
      simp only [Bool.not_false, if_true, Bool.false_eq_true, if_false, List.length_cons]
      omega
    · simp only [List.filter_cons, h]
      simp only [Bool.not_true, if_true, Bool.false_eq_true, if_false, List.length_cons]
      omega

/-! Lemmas about uniqueFirst and the grouped counts. -/

theorem mem_uniqueFirst {α : Type} [DecidableEq α] (seen l : List α) (x : α) :
    x ∈ uniqueFirst seen l ↔ (x ∈ l ∧ x ∉ seen) := by
  induction l generalizing seen with
  | nil => simp [uniqueFirst]
  | cons a l ih =>
    by_cases ha : a ∈ seen
    · rw [uniqueFirst, if_pos ha, ih seen]
      constructor
      · rintro ⟨hx, hs⟩
        exact ⟨List.mem_cons_of_mem a hx, hs⟩
      · rintro ⟨hx, hs⟩
        rcases List.mem_cons.mp hx with rfl | hx
        · exact absurd ha hs
        · exact ⟨hx, hs⟩
    · rw [uniqueFirst, if_neg ha]
      constructor
      · intro hx
        rcases List.mem_cons.mp hx with rfl | hx
        · exact ⟨List.mem_cons_self x l, ha⟩
        · obtain ⟨h1, h2⟩ := (ih (a :: seen)).mp hx
          exact ⟨List.mem_cons_of_mem a h1, fun hs => h2 (List.mem_cons_of_mem a hs)⟩
      · rintro ⟨hx, hs⟩
        rcases List.mem_cons.mp hx with rfl | hx
        · exact List.mem_cons_self x _
        · by_cases hxa : x = a
          · subst hxa
            exact List.mem_cons_self x _
          · refine List.mem_cons_of_mem a ((ih (a :: seen)).mpr ⟨hx, ?_⟩)
            simp only [List.mem_cons, not_or]
            exact ⟨hxa, hs⟩

theorem nodup_uniqueFirst {α : Type} [DecidableEq α] (seen l : List α) :
    (uniqueFirst seen l).Nodup := by
  induction l generalizing seen with
  | nil => simp [uniqueFirst]
  | cons a l ih =>
    by_cases ha : a ∈ seen
    · simpa [uniqueFirst, ha] using ih seen
    · rw [uniqueFirst, if_neg ha]
      refine List.nodup_cons.mpr ⟨?_, ih (a :: seen)⟩
      intro hmem
      exact ((mem_uniqueFirst (a :: seen) l a).mp hmem).2 (List.mem_cons_self a seen)

theorem filter_length_split {α : Type} [DecidableEq α] (l : List α) (a : α)
    (q : α → Bool) (hqa : q a = true) :
    (l.filter q).length = l.count a + (l.filter (fun x => q x && decide (x ≠ a))).length := by
  induction l with
  | nil => simp
  | cons b l ih =>
    by_cases hb : b = a
    · subst hb
      have hne : decide (b ≠ b) = false := by simp
      simp only [List.filter_cons, hqa, if_true, hne, Bool.and_false, Bool.false_eq_true,
        if_false, List.count_cons_self]
      simp only [List.length_cons, ih]
      omega
    · have hab : a ≠ b := fun he => hb he.symm
      rw [List.count_cons_of_ne hab]
      have hne : decide (b ≠ a) = true := by simp [hb]
      cases hq : q b
      · simp only [List.filter_cons, hq, Bool.false_and]
        simp only [Bool.false_eq_true, if_false, ih]
      · simp only [List.filter_cons, hq, hne, Bool.and_self, if_true]
        simp only [List.length_cons, ih]
        omega

theorem sum_counts_uniqueFirst {α : Type} [DecidableEq α] (l seen : List α) :
    ((uniqueFirst seen l).map (fun k => l.count k)).sum
      = (l.filter (fun x => decide (x ∉ seen))).length := by
  induction l generalizing seen with
  | nil => simp [uniqueFirst]
  | cons a l ih =>
    by_cases ha : a ∈ seen
    · rw [uniqueFirst, if_pos ha]
      have hmap : (uniqueFirst seen l).map (fun k => (a :: l).count k)
          = (uniqueFirst seen l).map (fun k => l.count k) := by
        apply List.map_congr_left
        intro k hk
        have hk2 := (mem_uniqueFirst seen l k).mp hk
        have hka : k ≠ a := fun he => hk2.2 (he ▸ ha)
        rw [List.count_cons_of_ne hka]
      rw [hmap, ih seen]
      have hda : decide (a ∉ seen) = false := by simp [ha]
      simp [List.filter_cons, hda, ha]
    · rw [uniqueFirst, if_neg ha]
      simp only [List.map_cons, List.sum_cons]
      have hmap : (uniqueFirst (a :: seen) l).map (fun k => (a :: l).count k)
          = (uniqueFirst (a :: seen) l).map (fun k => l.count k) := by
        apply List.map_congr_left
        intro k hk
        have hk2 := (mem_uniqueFirst (a :: seen) l k).mp hk
        have hka : k ≠ a := fun he => hk2.2 (he ▸ List.mem_cons_self a seen)
        rw [List.count_cons_of_ne hka]
      rw [hmap, ih (a :: seen)]
      have hda : decide (a ∉ seen) = true := by simp [ha]
      have hsplit := filter_length_split l a (fun x => decide (x ∉ seen)) hda
      have hcong : l.filter (fun x => decide (x ∉ a :: seen))
          = l.filter (fun x => decide (x ∉ seen) && decide (x ≠ a)) := by
        apply List.filter_congr
        intro x hx
        by_cases h1 : x = a
        · simp [h1]
        · by_cases h2 : x ∈ seen
          all_goals simp [h1, h2]
      rw [List.count_cons_self, List.filter_cons, hda]
      simp only [if_true, List.length_cons, hcong, hsplit]
      omega

theorem groupSorted_count_pos {α : Type} [DecidableEq α] (r : α → α → Prop)
    [DecidableRel r] (ks : List α) : ∀ p ∈ groupSorted r ks, 1 ≤ p.2 := by
  intro p hp
  unfold groupSorted at hp
  obtain ⟨k, hk, rfl⟩ := List.mem_map.mp hp
  have hk2 : k ∈ uniqueFirst [] ks := (List.perm_insertionSort r _).mem_iff.mp hk
  have hk3 : k ∈ ks := ((mem_uniqueFirst [] ks k).mp hk2).1
  exact Nat.succ_le_of_lt (List.count_pos_iff.mpr hk3)

theorem groupSorted_keys_nodup {α : Type} [DecidableEq α] (r : α → α → Prop)
    [DecidableRel r] (ks : List α) : ((groupSorted r ks).map Prod.fst).Nodup := by
  unfold groupSorted
  rw [List.map_map]
  have h1 : (Prod.fst ∘ fun k => (k, ks.count k)) = id := rfl
  rw [h1, List.map_id]
  exact ((List.perm_insertionSort r _).nodup_iff).mpr (nodup_uniqueFirst [] ks)

theorem groupSorted_sum {α : Type} [DecidableEq α] (r : α → α → Prop)
    [DecidableRel r] (ks : List α) :
    ((groupSorted r ks).map Prod.snd).sum = ks.length := by
  unfold groupSorted
  rw [List.map_map]
  have h1 : (Prod.snd ∘ fun k => (k, ks.count k)) = fun k => ks.count k := rfl
  rw [h1]
  have hperm := ((List.perm_insertionSort r (uniqueFirst [] ks))).map (fun k => ks.count k)
  rw [hperm.sum_eq, sum_counts_uniqueFirst]
  simp

/-! Lemmas about the reference-map construction. -/

theorem seriesMap_cons_some (r : Row) (rs : List Row) (k v a b : String)
    (hk : rowGet r k = some a) (hv : rowGet r v = some b) :
    seriesMap (r :: rs) k v = (a, b) :: seriesMap rs k v := by
  simp [seriesMap, hk, hv]

theorem mapLookup_seriesMap_dedup (k v : String) (rs : List Row) (seen : List Cell)
    (x : String)
    (hall : ∀ r ∈ rs, (rowGet r k).isSome = true ∧ (rowGet r v).isSome = true)
    (hx : some x ∉ seen) :
    mapLookup (seriesMap (dropDuplicatesFirst k seen rs) k v) x
      = mapLookup (seriesMap rs k v) x := by
  induction rs generalizing seen with
  | nil => rfl
  | cons r rs ih =>
    obtain ⟨hk, hv⟩ := hall r (List.mem_cons_self r rs)
    obtain ⟨a, ha⟩ := Option.isSome_iff_exists.mp hk
    obtain ⟨b, hb⟩ := Option.isSome_iff_exists.mp hv
    have htail : ∀ r2 ∈ rs, (rowGet r2 k).isSome = true ∧ (rowGet r2 v).isSome = true :=
      fun r2 h2 => hall r2 (List.mem_cons_of_mem r h2)
    rw [seriesMap_cons_some r rs k v a b ha hb]
    by_cases hs : rowGet r k ∈ seen
    · rw [dropDuplicatesFirst, if_pos hs]
      have hax : ¬ a = x := by
        intro he
        subst he
        rw [ha] at hs
        exact hx hs
      rw [mapLookup, if_neg hax]
      exact ih seen htail hx
    · rw [dropDuplicatesFirst, if_neg hs]
      rw [seriesMap_cons_some r _ k v a b ha hb]
      by_cases hax : a = x
      · simp [mapLookup, hax]
      · rw [mapLookup, if_neg hax, mapLookup, if_neg hax]
        have hx2 : some x ∉ (rowGet r k :: seen) := by
          rw [ha]
          simp only [List.mem_cons, not_or]
          exact ⟨fun he => hax (Option.some.inj he).symm, hx⟩
        exact ih (rowGet r k :: seen) htail hx2

theorem keys_seriesMap_dedup (k v : String) (rs : List Row) (seen : List Cell)
    (hall : ∀ r ∈ rs, (rowGet r k).isSome = true ∧ (rowGet r v).isSome = true) :
    ((seriesMap (dropDuplicatesFirst k seen rs) k v).map Prod.fst).Nodup
    ∧ ∀ x ∈ (seriesMap (dropDuplicatesFirst k seen rs) k v).map Prod.fst,
        some x ∉ seen := by
  induction rs generalizing seen with
  | nil => exact ⟨by simp [dropDuplicatesFirst, seriesMap], by simp [dropDuplicatesFirst, seriesMap]⟩
  | cons r rs ih =>
    obtain ⟨hk, hv⟩ := hall r (List.mem_cons_self r rs)
    obtain ⟨a, ha⟩ := Option.isSome_iff_exists.mp hk
    obtain ⟨b, hb⟩ := Option.isSome_iff_exists.mp hv
    have htail : ∀ r2 ∈ rs, (rowGet r2 k).isSome = true ∧ (rowGet r2 v).isSome = true :=
      fun r2 h2 => hall r2 (List.mem_cons_of_mem r h2)
    by_cases hs : rowGet r k ∈ seen
    · rw [dropDuplicatesFirst, if_pos hs]
      exact ih seen htail
    · rw [dropDuplicatesFirst, if_neg hs]
      rw [seriesMap_cons_some r _ k v a b ha hb]
      obtain ⟨ihn, ihs⟩ := ih (rowGet r k :: seen) htail
      constructor
      · rw [List.map_cons]
        refine List.nodup_cons.mpr ⟨?_, ihn⟩
        intro hmem
        have := ihs a hmem
        rw [ha] at this
        exact this (List.mem_cons_self (some a) seen)
      · intro x hx
        rw [List.map_cons] at hx
        rcases List.mem_cons.mp hx with rfl | hx
        · rw [← ha]
          exact hs
        · intro hxs
          exact ihs x hx (List.mem_cons_of_mem _ hxs)

theorem dropnaSubset2_isSome (rows : List Row) (k v : String) :
    ∀ r ∈ dropnaSubset2 rows k v,
      (rowGet r k).isSome = true ∧ (rowGet r v).isSome = true := by
  intro r hr
  have := (List.mem_filter.mp hr).2
  exact ⟨(Bool.and_eq_true _ _ |>.mp this).1, (Bool.and_eq_true _ _ |>.mp this).2⟩

theorem seriesMap_cons_none (r : Row) (rs : List Row) (k v : String)
    (h : rowGet r k = none ∨ rowGet r v = none) :
    seriesMap (r :: rs) k v = seriesMap rs k v := by
  rcases h with h | h
  · cases hv : rowGet r v
    all_goals simp [seriesMap, List.filterMap_cons, h, hv]
  · cases hk : rowGet r k
    all_goals simp [seriesMap, List.filterMap_cons, h, hk]

theorem seriesMap_dropna (rows : List Row) (k v : String) :
    seriesMap (dropnaSubset2 rows k v) k v = seriesMap rows k v := by
  induction rows with
  | nil => rfl
  | cons r rs ih =>
    cases hk : rowGet r k with
    | none =>
      have hc : ((rowGet r k).isSome && (rowGet r v).isSome) = false := by simp [hk]
      simp only [dropnaSubset2, List.filter_cons, hc, Bool.false_eq_true, if_false]
      simp only [dropnaSubset2] at ih
      rw [ih, seriesMap_cons_none r rs k v (Or.inl hk)]
    | some a =>
      cases hv : rowGet r v with
      | none =>
        have hc : ((rowGet r k).isSome && (rowGet r v).isSome) = false := by simp [hv]
        simp only [dropnaSubset2, List.filter_cons, hc, Bool.false_eq_true, if_false]
        simp only [dropnaSubset2] at ih
        rw [ih, seriesMap_cons_none r rs k v (Or.inr hv)]
      | some b =>
        have hc : ((rowGet r k).isSome && (rowGet r v).isSome) = true := by simp [hk, hv]
        simp only [dropnaSubset2, List.filter_cons, hc, if_true]
        rw [seriesMap_cons_some r _ k v a b hk hv, seriesMap_cons_some r rs k v a b hk hv]
        simp only [dropnaSubset2] at ih
        rw [ih]

theorem buildKeyValueMap_lookup (d : DataFrame) (k v x : String) :
    mapLookup (buildKeyValueMap d k v) x = mapLookup (seriesMap d.rows k v) x := by
  unfold buildKeyValueMap
  rw [mapLookup_seriesMap_dedup k v (dropnaSubset2 d.rows k v) [] x
    (dropnaSubset2_isSome d.rows k v) (by simp)]
  rw [seriesMap_dropna]

theorem buildKeyValueMap_keys_nodup (d : DataFrame) (k v : String) :
    ((buildKeyValueMap d k v).map Prod.fst).Nodup :=
  (keys_seriesMap_dedup k v (dropnaSubset2 d.rows k v) []
    (dropnaSubset2_isSome d.rows k v)).1

theorem rowGet_norm2_documento (r : Row) :
    rowGet (rowSet (rowSet r "DOCUMENTO" (normCell (rowGet r "DOCUMENTO"))) "NOMBRE"
        (normCell (rowGet (rowSet r "DOCUMENTO" (normCell (rowGet r "DOCUMENTO"))) "NOMBRE")))
      "DOCUMENTO" = some (normCellStr (rowGet r "DOCUMENTO")) := by
  rw [rowGet_rowSet_ne _ _ _ _ (by decide)]
  rw [rowGet_rowSet_self]
  rfl

theorem rowGet_norm2_nombre (r : Row) :
    rowGet (rowSet (rowSet r "DOCUMENTO" (normCell (rowGet r "DOCUMENTO"))) "NOMBRE"
        (normCell (rowGet (rowSet r "DOCUMENTO" (normCell (rowGet r "DOCUMENTO"))) "NOMBRE")))
      "NOMBRE" = some (normCellStr (rowGet r "NOMBRE")) := by
  rw [rowGet_rowSet_self]
  rw [rowGet_rowSet_ne _ _ _ _ (by decide)]
  rfl

theorem seriesMap_mapa_nombre (rows : List Row) :
    seriesMap (rows.map (fun r =>
        rowSet (rowSet r "DOCUMENTO" (normCell (rowGet r "DOCUMENTO"))) "NOMBRE"
          (normCell (rowGet (rowSet r "DOCUMENTO" (normCell (rowGet r "DOCUMENTO"))) "NOMBRE"))))
      "DOCUMENTO" "NOMBRE"
    = rows.map (fun r => (normCellStr (rowGet r "DOCUMENTO"), normCellStr (rowGet r "NOMBRE"))) := by
  induction rows with
  | nil => rfl
  | cons r rs ih =>
    rw [List.map_cons,
      seriesMap_cons_some _ _ _ _ _ _ (rowGet_norm2_documento r) (rowGet_norm2_nombre r),
      ih, List.map_cons]

theorem mapa_nombre_lookup (dfF : DataFrame) (x : String) :
    mapLookup (mapa_nombre_of dfF) x
      = mapLookup (dfF.rows.map (fun r =>
          (normCellStr (rowGet r "DOCUMENTO"), normCellStr (rowGet r "NOMBRE")))) x := by
  unfold mapa_nombre_of
  rw [buildKeyValueMap_lookup]
  have hrows : (normColCells (normColCells dfF "DOCUMENTO") "NOMBRE").rows
      = dfF.rows.map (fun r =>
          rowSet (rowSet r "DOCUMENTO" (normCell (rowGet r "DOCUMENTO"))) "NOMBRE"
            (normCell (rowGet (rowSet r "DOCUMENTO" (normCell (rowGet r "DOCUMENTO"))) "NOMBRE"))) := by
    simp [normColCells, setCol, List.map_map]
  rw [hrows, seriesMap_mapa_nombre]

/-! Helper for the state-filter closure. -/

theorem filter_isin_closure (d : DataFrame) (e : String) (valid : List String) :
    ∀ r ∈ (filterRows d (fun r => cellIsin (rowGet r e) valid)).rows,
      ∃ st, rowGet r e = some st ∧ st ∈ valid := by
  intro r hr
  rw [rows_filterRows] at hr
  have h2 := (List.mem_filter.mp hr).2
  cases hc : rowGet r e with
  | none =>
    rw [hc] at h2
    simp [cellIsin] at h2
  | some st =>
    rw [hc] at h2
    simp only [cellIsin] at h2
    exact ⟨st, rfl, of_decide_eq_true h2⟩

theorem legalizaciones_filtered_eq (td : Cell → Cell) (d : DataFrame)
    (he : "ESTADO" ∈ d.cols) :
    legalizaciones_filtered td d "ESTADO" "FECHA_REAL"
      = filterRows
          (setCol (parse_date_column d "FECHA_REAL" td) "ESTADO"
            (fun r => normCell (rowGet r "ESTADO")))
          (fun r => cellIsin (rowGet r "ESTADO") ESTADOS_VALIDOS_LEGALIZACIONES) := by
  unfold legalizaciones_filtered
  have h2 : "ESTADO" ∈ (parse_date_column d "FECHA_REAL" td).cols := by
    rw [cols_parse_date_column]
    exact he
  rw [if_pos h2]

theorem rips_filtered_eq (td : Cell → Cell) (d : DataFrame)
    (he : "ESTADO" ∈ d.cols) :
    rips_filtered td d "ESTADO" "FECHA_REAL"
      = filterRows
          (setCol (parse_date_column d "FECHA_REAL" td) "ESTADO"
            (fun r => normCell (rowGet r "ESTADO")))
          (fun r => cellIsin (rowGet r "ESTADO") ESTADOS_VALIDOS_RIPS) := by
  unfold rips_filtered
  have h2 : "ESTADO" ∈ (parse_date_column d "FECHA_REAL" td).cols := by
    rw [cols_parse_date_column]
    exact he
  rw [if_pos h2]

theorem fe_filtered_eq (td : Cell → Cell) (d : DataFrame)
    (he : "ESTADO" ∈ d.cols) :
    fe_filtered td d "ESTADO" "FECHA RADICACIÓN"
      = filterRows
          (setCol (parse_date_column d "FECHA RADICACIÓN" td) "ESTADO"
            (fun r => normCell (rowGet r "ESTADO")))
          (fun r => cellIsin (rowGet r "ESTADO") ESTADOS_VALIDOS_FACTURACION_ELECTRONICA) := by
  unfold fe_filtered
  have h2 : "ESTADO" ∈ (parse_date_column d "FECHA RADICACIÓN" td).cols := by
    rw [cols_parse_date_column]
    exact he
  rw [if_pos h2]

/-- C4: Category Splitter partition completeness (process_legalizaciones): for
a legalization table containing the CONVENIO column with non-null values, the
PPL partition and the agreement partition are disjoint by agreement value and
their row counts add up to the row count of the state-filtered input: the
split drops no row. -/
theorem C4_split_partition (td : Cell → Cell) (d : DataFrame)
    (hne : dfEmpty d = false) (hconv : "CONVENIO" ∈ d.cols)
    (_hnn : ∀ r ∈ d.rows, (rowGet r "CONVENIO").isSome = true) :
    ∃ p s,
      process_legalizaciones td (some d) "ESTADO" "FECHA_REAL" "CONVENIO"
        = (some p, some s) ∧
      p.rows.length + s.rows.length
        = (legalizaciones_filtered td d "ESTADO" "FECHA_REAL").rows.length ∧
      (∀ r ∈ p.rows, rowGet r "CONVENIO" = some CONVENIO_PPL) ∧
      (∀ r ∈ s.rows, rowGet r "CONVENIO" ≠ some CONVENIO_PPL) := by
  have hc2 : "CONVENIO" ∈ (legalizaciones_filtered td d "ESTADO" "FECHA_REAL").cols := by
    rw [cols_legalizaciones_filtered]
    exact hconv
  refine ⟨filterRows (legalizaciones_filtered td d "ESTADO" "FECHA_REAL")
      (fun r => cellEq (rowGet r "CONVENIO") CONVENIO_PPL),
    filterRows (legalizaciones_filtered td d "ESTADO" "FECHA_REAL")
      (fun r => !cellEq (rowGet r "CONVENIO") CONVENIO_PPL), ?_, ?_, ?_, ?_⟩
  · unfold process_legalizaciones
    simp only [hne, Bool.false_eq_true, if_false, hc2, if_true]
  · exact length_filter_add_length_filter_not _ _
  · intro r hr
    rw [rows_filterRows] at hr
    exact of_decide_eq_true (List.mem_filter.mp hr).2
  · intro r hr
    rw [rows_filterRows] at hr
    have h2 := (List.mem_filter.mp hr).2
    intro he
    rw [cellEq, decide_eq_true he] at h2
    simp at h2

/-- C4 witness: a three-row legalization table (one PPL row, one other-agreement
row, one row dropped by the state filter) splits into 1 + 1 = 2 rows. -/
theorem C4_split_partition_witness :
    ∃ p s,
      process_legalizaciones id
          (some ⟨["ESTADO", "CONVENIO", "FECHA_REAL"],
            [[("ESTADO", some "ACTIVA"),
              ("CONVENIO", some "Patrimonio Autonomo Fondo Atención Salud PPL 2024"),
              ("FECHA_REAL", some "d")],
             [("ESTADO", some "ANULADA"), ("CONVENIO", some "Otro"), ("FECHA_REAL", some "d")],
             [("ESTADO", some "ACTIVA"), ("CONVENIO", some "Otro"), ("FECHA_REAL", some "d")]]⟩)
          "ESTADO" "FECHA_REAL" "CONVENIO"
        = (some p, some s) ∧
      p.rows.length + s.rows.length
        = (legalizaciones_filtered id
            ⟨["ESTADO", "CONVENIO", "FECHA_REAL"],
              [[("ESTADO", some "ACTIVA"),
                ("CONVENIO", some "Patrimonio Autonomo Fondo Atención Salud PPL 2024"),
                ("FECHA_REAL", some "d")],
               [("ESTADO", some "ANULADA"), ("CONVENIO", some "Otro"), ("FECHA_REAL", some "d")],
               [("ESTADO", some "ACTIVA"), ("CONVENIO", some "Otro"), ("FECHA_REAL", some "d")]]⟩
            "ESTADO" "FECHA_REAL").rows.length ∧
      (∀ r ∈ p.rows, rowGet r "CONVENIO" = some CONVENIO_PPL) ∧
      (∀ r ∈ s.rows, rowGet r "CONVENIO" ≠ some CONVENIO_PPL) :=
  C4_split_partition id _ (by decide) (by decide) (by decide)

/-- C5: State-filter closure: whenever the ESTADO column is present, every row
of the processed output carries a state value inside the configured valid set
of its category (legalizations ACTIVA, RIPS COMPLETO, e-billing ACTIVO). -/
theorem C5_state_filter_closure :
    (∀ (td : Cell → Cell) (d p s : DataFrame),
      process_legalizaciones td (some d) "ESTADO" "FECHA_REAL" "CONVENIO"
          = (some p, some s) →
      "ESTADO" ∈ d.cols →
      (∀ r ∈ p.rows, ∃ st, rowGet r "ESTADO" = some st ∧
        st ∈ ESTADOS_VALIDOS_LEGALIZACIONES) ∧
      (∀ r ∈ s.rows, ∃ st, rowGet r "ESTADO" = some st ∧
        st ∈ ESTADOS_VALIDOS_LEGALIZACIONES)) ∧
    (∀ (td : Cell → Cell) (d out : DataFrame),
      process_rips td (some d) "ESTADO" "FECHA_REAL" = some out →
      "ESTADO" ∈ d.cols →
      ∀ r ∈ out.rows, ∃ st, rowGet r "ESTADO" = some st ∧
        st ∈ ESTADOS_VALIDOS_RIPS) ∧
    (∀ (td : Cell → Cell) (d out : DataFrame),
      process_facturacion_electronica td (some d) "ESTADO" "FECHA RADICACIÓN" = some out →
      "ESTADO" ∈ d.cols →
      ∀ r ∈ out.rows, ∃ st, rowGet r "ESTADO" = some st ∧
        st ∈ ESTADOS_VALIDOS_FACTURACION_ELECTRONICA) := by
  refine ⟨?_, ?_, ?_⟩
  · intro td d p s heq he
    have hclose := filter_isin_closure
      (setCol (parse_date_column d "FECHA_REAL" td) "ESTADO"
        (fun r => normCell (rowGet r "ESTADO")))
      "ESTADO" ESTADOS_VALIDOS_LEGALIZACIONES
    unfold process_legalizaciones at heq
    by_cases hne : dfEmpty d
    · simp only [hne, if_true] at heq
      exact absurd heq (by simp [Prod.ext_iff])
    · simp only [hne, Bool.false_eq_true, if_false] at heq
      by_cases hc : "CONVENIO" ∈ (legalizaciones_filtered td d "ESTADO" "FECHA_REAL").cols
      · simp only [hc, if_true, Prod.mk.injEq, Option.some.injEq] at heq
        obtain ⟨hp, hs⟩ := heq
        rw [legalizaciones_filtered_eq td d he] at hp hs
        constructor
        · intro r hr
          rw [← hp, rows_filterRows] at hr
          exact hclose r (List.mem_filter.mp hr).1
        · intro r hr
          rw [← hs, rows_filterRows] at hr
          exact hclose r (List.mem_filter.mp hr).1
      · simp only [hc, if_false] at heq
        exact absurd heq (by simp [Prod.ext_iff])
  · intro td d out heq he
    unfold process_rips at heq
    by_cases hne : dfEmpty d
    · simp only [hne, if_true] at heq
      exact absurd heq (by simp)
    · simp only [hne, Bool.false_eq_true, if_false, Option.some.injEq] at heq
      subst heq
      rw [rips_filtered_eq td d he]
      exact filter_isin_closure _ "ESTADO" ESTADOS_VALIDOS_RIPS
  · intro td d out heq he
    unfold process_facturacion_electronica at heq
    by_cases hne : dfEmpty d
    · simp only [hne, if_true] at heq
      exact absurd heq (by simp)
    · simp only [hne, Bool.false_eq_true, if_false, Option.some.injEq] at heq
      subst heq
      rw [fe_filtered_eq td d he]
      exact filter_isin_closure _ "ESTADO" ESTADOS_VALIDOS_FACTURACION_ELECTRONICA

/-- C5 witness: the closure applied to concrete one-row tables of each category. -/
theorem C5_state_filter_closure_witness :
    ∀ r ∈ (rips_filtered id
        ⟨["ESTADO"], [[("ESTADO", some "COMPLETO")], [("ESTADO", some "PENDIENTE")]]⟩
        "ESTADO" "FECHA_REAL").rows,
      ∃ st, rowGet r "ESTADO" = some st ∧ st ∈ ESTADOS_VALIDOS_RIPS :=
  C5_state_filter_closure.2.1 id
    ⟨["ESTADO"], [[("ESTADO", some "COMPLETO")], [("ESTADO", some "PENDIENTE")]]⟩
    _ (by decide) (by decide)

/-- C10: Empty-table column resolution: a null table, or one with zero rows,
is rejected by validate_required_columns with the complete required list, and
find_column_variant resolves no variant, regardless of the schema. -/
theorem C10_empty_table_resolution :
    (∀ required variants : List String,
      validate_required_columns none required = (false, required) ∧
      find_column_variant none variants = none) ∧
    (∀ (d : DataFrame) (required variants : List String), d.rows.isEmpty = true →
      validate_required_columns (some d) required = (false, required) ∧
      find_column_variant (some d) variants = none) := by
  constructor
  · intro required variants
    exact ⟨rfl, rfl⟩
  · intro d required variants h
    have he : dfEmpty d = true := by simp [dfEmpty, h]
    exact ⟨by simp [validate_required_columns, he], by simp [find_column_variant, he]⟩

/-- C10 witness: a zero-row upload whose header does contain the required
column is still rejected as missing it. -/
theorem C10_empty_table_resolution_witness :
    validate_required_columns (some ⟨["ESTADO"], []⟩) ["ESTADO"] = (false, ["ESTADO"]) ∧
    find_column_variant (some ⟨["ESTADO"], []⟩) ["ESTADO"] = none :=
  C10_empty_table_resolution.2 ⟨["ESTADO"], []⟩ ["ESTADO"] ["ESTADO"] (by decide)

/-- C7: Category Splitter missing-column failure: on a non-empty legalization
table with user and date columns but no CONVENIO column, process_legalizaciones
produces no partitions, and validate_legalizaciones (the guard the service
layer aborts on) reports an explicit error naming CONVENIO among the missing
columns. -/
theorem C7_missing_convenio_error (td : Cell → Cell) (d : DataFrame)
    (hne : dfEmpty d = false)
    (hu : (find_column_variant (some d) COLUMN_NAMES_usuario).isSome = true)
    (hf : (find_column_variant (some d) COLUMN_NAMES_fecha).isSome = true)
    (hconv : "CONVENIO" ∉ d.cols) :
    process_legalizaciones td (some d) "ESTADO" "FECHA_REAL" "CONVENIO" = (none, none) ∧
    ∃ missing : List String, "CONVENIO" ∈ missing ∧
      validate_legalizaciones (some d)
        = (false, "Faltan columnas: " ++ String.intercalate ", " missing) := by
  have hmem : "CONVENIO" ∈ ["ESTADO", "CONVENIO"].filter (fun c => decide (c ∉ d.cols)) :=
    List.mem_filter.mpr ⟨by simp, by simp [hconv]⟩
  constructor
  · unfold process_legalizaciones
    have h2 : "CONVENIO" ∉ (legalizaciones_filtered td d "ESTADO" "FECHA_REAL").cols := by
      rw [cols_legalizaciones_filtered]
      exact hconv
    simp [hne, h2]
  · refine ⟨["ESTADO", "CONVENIO"].filter (fun c => decide (c ∉ d.cols)), hmem, ?_⟩
    obtain ⟨u, hu2⟩ := Option.isSome_iff_exists.mp hu
    obtain ⟨f0, hf2⟩ := Option.isSome_iff_exists.mp hf
    unfold validate_legalizaciones
    simp only [hu2, hf2, Option.isNone_some, Bool.or_self, Bool.false_eq_true, if_false]
    unfold validate_required_columns
    simp only [hne, Bool.false_eq_true, if_false]
    have hie : (["ESTADO", "CONVENIO"].filter (fun c => decide (c ∉ d.cols))).isEmpty
        = false := by
      cases hX : ["ESTADO", "CONVENIO"].filter (fun c => decide (c ∉ d.cols)) with
      | nil =>
        rw [hX] at hmem
        simp at hmem
      | cons a l =>
        rfl
    simp only [hie, Bool.not_false, if_true]

/-- C7 witness: a one-row table with USUARIO, FECHA_REAL and ESTADO but no
CONVENIO column. -/
theorem C7_missing_convenio_error_witness :
    process_legalizaciones id
        (some ⟨["USUARIO", "FECHA_REAL", "ESTADO"], [[("USUARIO", some "x")]]⟩)
        "ESTADO" "FECHA_REAL" "CONVENIO" = (none, none) ∧
    ∃ missing : List String, "CONVENIO" ∈ missing ∧
      validate_legalizaciones
          (some ⟨["USUARIO", "FECHA_REAL", "ESTADO"], [[("USUARIO", some "x")]]⟩)
        = (false, "Faltan columnas: " ++ String.intercalate ", " missing) :=
  C7_missing_convenio_error id _ (by decide) (by decide) (by decide) (by decide)

/-- C2 counterexample: a roster whose single row has a null DOCUMENTO still
contributes a map entry — the null key is stringified to "NAN" by the
astype(str) normalization that runs before the null-drop, so the claimed
"rows with a null key contribute no map entry" fails on the code. -/
theorem C2_null_key_counterexample :
    mapa_nombre_of ⟨["DOCUMENTO", "NOMBRE"], [[("DOCUMENTO", none), ("NOMBRE", some "Ana")]]⟩
      = [("NAN", "ANA")] ∧
    mapa_nombre_of ⟨["DOCUMENTO", "NOMBRE"], [[("DOCUMENTO", none), ("NOMBRE", some "Ana")]]⟩
      ≠ [] := by
  decide

/-- C2 (amended): the dropna/drop_duplicates/set_index chain retains exactly
one value per key — the first row in input order with non-null key and value
cells: the map keys are pairwise distinct and lookup equals first occurrence
among the non-null (key, value) pairs.  However, at the document-to-name call
site both columns are stringified by astype(str) normalization before the
null-drop, so every roster row contributes its normalized pair in input
order, null cells entering as the string "NAN" rather than being dropped. -/
theorem C2_map_first_wins :
    (∀ (d : DataFrame) (k v : String),
      ((buildKeyValueMap d k v).map Prod.fst).Nodup ∧
      ∀ x, mapLookup (buildKeyValueMap d k v) x = mapLookup (seriesMap d.rows k v) x) ∧
    (∀ (dfF : DataFrame) (x : String),
      mapLookup (mapa_nombre_of dfF) x
        = mapLookup (dfF.rows.map (fun r =>
            (normCellStr (rowGet r "DOCUMENTO"), normCellStr (rowGet r "NOMBRE")))) x) :=
  ⟨fun d k v => ⟨buildKeyValueMap_keys_nodup d k v, fun x => buildKeyValueMap_lookup d k v x⟩,
   fun dfF x => mapa_nombre_lookup dfF x⟩

/-! The per-row behaviour of a column assignment. -/

theorem rowGet_setCol_get (d : DataFrame) (c : String) (f : Row → Cell) (i : Nat)
    (hi : i < (setCol d c f).rows.length) (hi2 : i < d.rows.length) :
    (setCol d c f).rows.get ⟨i, hi⟩
      = rowSet (d.rows.get ⟨i, hi2⟩) c (f (d.rows.get ⟨i, hi2⟩)) := by
  simp [setCol, List.get_eq_getElem, List.getElem_map]

theorem cruzar_valid_path (dr dfF : DataFrame) (u : String)
    (hne : dfEmpty dr = false) (hnf : dfEmpty dfF = false)
    (hu : find_column_variant (some dr) COLUMN_NAMES_usuario = some u)
    (hdoc : "DOCUMENTO" ∈ dfF.cols) (hnom : "NOMBRE" ∈ dfF.cols) :
    (cruzar_documento_a_nombre (some dr) (some dfF)).result
      = some (setCol (normColCells dr u) u (fun r =>
          match rowGet r u with
          | some s =>
            match mapLookup (mapa_nombre_of dfF) s with
            | some n => some n
            | none => some s
          | none => none)) := by
  have hcols : ¬ ("DOCUMENTO" ∉ dfF.cols ∨ "NOMBRE" ∉ dfF.cols) := by simp [hdoc, hnom]
  unfold cruzar_documento_a_nombre
  simp [hne, hnf, hu, hcols]

/-- C1: Document-to-Name lookup (Pass B): on a RIPS table with a resolvable
user column and a roster with DOCUMENTO and NOMBRE, every output row carries,
in the user column, the roster name mapped to the normalized document of that
row when the document is a key of the reference map, and otherwise the value
the pass computed just before the lookup — the normalized original — so a
non-null input value is never replaced by null (indeed no output cell is
null). -/
theorem C1_document_to_name_coalesce (dr dfF : DataFrame) (u : String)
    (hne : dfEmpty dr = false) (hnf : dfEmpty dfF = false)
    (hu : find_column_variant (some dr) COLUMN_NAMES_usuario = some u)
    (hdoc : "DOCUMENTO" ∈ dfF.cols) (hnom : "NOMBRE" ∈ dfF.cols) :
    ∃ out, (cruzar_documento_a_nombre (some dr) (some dfF)).result = some out ∧
      out.rows.length = dr.rows.length ∧
      ∀ i (hi : i < out.rows.length) (hi2 : i < dr.rows.length),
        (rowGet (out.rows.get ⟨i, hi⟩) u).isSome = true ∧
        rowGet (out.rows.get ⟨i, hi⟩) u
          = (match mapLookup (mapa_nombre_of dfF)
                (normCellStr (rowGet (dr.rows.get ⟨i, hi2⟩) u)) with
             | some n => some n
             | none => normCell (rowGet (dr.rows.get ⟨i, hi2⟩) u)) := by
  refine ⟨setCol (normColCells dr u) u (fun r =>
      match rowGet r u with
      | some s =>
        match mapLookup (mapa_nombre_of dfF) s with
        | some n => some n
        | none => some s
      | none => none), cruzar_valid_path dr dfF u hne hnf hu hdoc hnom, ?_, ?_⟩
  · simp [setCol, normColCells]
  · intro i hi hi2
    have hlen1 : i < (normColCells dr u).rows.length := by
      simpa [normColCells, setCol] using hi2
    rw [rowGet_setCol_get (normColCells dr u) u _ i hi hlen1, rowGet_rowSet_self]
    have hget2 : (normColCells dr u).rows.get ⟨i, hlen1⟩
        = rowSet (dr.rows.get ⟨i, hi2⟩) u
            (normCell (rowGet (dr.rows.get ⟨i, hi2⟩) u)) :=
      rowGet_setCol_get dr u _ i hlen1 hi2
    rw [hget2, rowGet_rowSet_self]
    simp only [List.get_eq_getElem]
    cases hm : mapLookup (mapa_nombre_of dfF) (normCellStr (rowGet dr.rows[i] u)) with
    | none => simp [normCell, hm]
    | some n => simp [normCell, hm]

/-- C1 witness: Scenario 1 — roster maps 123 to ANA; a RIPS row with user
"123" resolves to "ANA" and a row with user "999" keeps its (normalized)
original value. -/
theorem C1_document_to_name_coalesce_witness :
    ∃ out, (cruzar_documento_a_nombre
        (some ⟨["USUARIO"], [[("USUARIO", some "123")], [("USUARIO", some "999")]]⟩)
        (some ⟨["DOCUMENTO", "NOMBRE"],
          [[("DOCUMENTO", some "123"), ("NOMBRE", some "Ana")],
           [("DOCUMENTO", some "456"), ("NOMBRE", some "Luis")]]⟩)).result = some out ∧
      out.rows.length
        = (⟨["USUARIO"], [[("USUARIO", some "123")], [("USUARIO", some "999")]]⟩ :
            DataFrame).rows.length ∧
      ∀ i (hi : i < out.rows.length)
        (hi2 : i < (⟨["USUARIO"], [[("USUARIO", some "123")], [("USUARIO", some "999")]]⟩ :
            DataFrame).rows.length),
        (rowGet (out.rows.get ⟨i, hi⟩) "USUARIO").isSome = true ∧
        rowGet (out.rows.get ⟨i, hi⟩) "USUARIO"
          = (match mapLookup (mapa_nombre_of ⟨["DOCUMENTO", "NOMBRE"],
                [[("DOCUMENTO", some "123"), ("NOMBRE", some "Ana")],
                 [("DOCUMENTO", some "456"), ("NOMBRE", some "Luis")]]⟩)
              (normCellStr (rowGet ((⟨["USUARIO"],
                [[("USUARIO", some "123")], [("USUARIO", some "999")]]⟩ :
                  DataFrame).rows.get ⟨i, hi2⟩) "USUARIO")) with
             | some n => some n
             | none => normCell (rowGet ((⟨["USUARIO"],
                 [[("USUARIO", some "123")], [("USUARIO", some "999")]]⟩ :
                   DataFrame).rows.get ⟨i, hi2⟩) "USUARIO")) :=
  C1_document_to_name_coalesce _ _ "USUARIO" (by decide) (by decide) (by decide)
    (by decide) (by decide)

theorem filtrar_rows_eq (d f : DataFrame) (cu tipo : String)
    (htmp : ∀ r ∈ d.rows, "_usuario_norm" ∉ rowKeys r) :
    (dropCol (filterRows (setCol d "_usuario_norm" (fun r => normCell (rowGet r cu)))
        (fun r => cellIsin (rowGet r "_usuario_norm")
          (uniqueFirst [] ((f.rows.filterMap (fun r2 => rowGet r2 tipo)).map strNorm))))
      "_usuario_norm").rows
    = d.rows.filter (fun r =>
        decide (normCellStr (rowGet r cu)
          ∈ (f.rows.filterMap (fun r2 => rowGet r2 tipo)).map strNorm)) := by
  simp only [dropCol, rows_filterRows, rows_setCol]
  rw [List.filter_map, List.map_map]
  have hpred : ∀ r ∈ d.rows,
      ((fun r => cellIsin (rowGet r "_usuario_norm")
          (uniqueFirst [] ((f.rows.filterMap (fun r2 => rowGet r2 tipo)).map strNorm)))
        ∘ (fun r => rowSet r "_usuario_norm" (normCell (rowGet r cu)))) r
      = (fun r =>
          decide (normCellStr (rowGet r cu)
            ∈ (f.rows.filterMap (fun r2 => rowGet r2 tipo)).map strNorm)) r := by
    intro r _
    simp only [Function.comp_apply, rowGet_rowSet_self, normCell, cellIsin]
    by_cases hmem : normCellStr (rowGet r cu)
        ∈ (f.rows.filterMap (fun r2 => rowGet r2 tipo)).map strNorm
    · have h1 : normCellStr (rowGet r cu)
          ∈ uniqueFirst [] ((f.rows.filterMap (fun r2 => rowGet r2 tipo)).map strNorm) :=
        (mem_uniqueFirst [] _ _).mpr ⟨hmem, by simp⟩
      simp [h1, hmem]
    · have h1 : normCellStr (rowGet r cu)
          ∉ uniqueFirst [] ((f.rows.filterMap (fun r2 => rowGet r2 tipo)).map strNorm) := by
        intro hmem2
        exact hmem ((mem_uniqueFirst [] _ _).mp hmem2).1
      simp [h1, hmem]
  rw [List.filter_congr hpred]
  have hid : ∀ r ∈ d.rows.filter (fun r =>
      decide (normCellStr (rowGet r cu)
        ∈ (f.rows.filterMap (fun r2 => rowGet r2 tipo)).map strNorm)),
      ((fun r => rowErase r "_usuario_norm")
          ∘ (fun r => rowSet r "_usuario_norm" (normCell (rowGet r cu)))) r = id r := by
    intro r hr
    have hr2 := (List.mem_filter.mp hr).1
    simp only [id, Function.comp_apply]
    rw [rowSet_eq_append _ _ _ (htmp r hr2), rowErase_append_single _ _ _ (htmp r hr2)]
  rw [List.map_congr_left hid, List.map_id]

/-- C6: Roster-membership filter (filtrar_por_facturadores): with a non-empty
target, non-empty roster, existing user column and existing comparison
column, the output rows are exactly the input rows whose trimmed, uppercased
user value occurs among the trimmed, uppercased non-null values of the
roster comparison column; non-member rows are dropped entirely. -/
theorem C6_roster_membership_filter (d f : DataFrame) (cu tipo : String)
    (hne : dfEmpty d = false) (hnf : dfEmpty f = false)
    (hcu : cu ∈ d.cols) (ht : tipo ∈ f.cols)
    (htmp : ∀ r ∈ d.rows, "_usuario_norm" ∉ rowKeys r) :
    ∃ out, filtrar_por_facturadores (some d) (some f) (some cu) tipo = some out ∧
      out.rows = d.rows.filter (fun r =>
        decide (normCellStr (rowGet r cu)
          ∈ (f.rows.filterMap (fun r2 => rowGet r2 tipo)).map strNorm)) := by
  refine ⟨dropCol (filterRows (setCol d "_usuario_norm" (fun r => normCell (rowGet r cu)))
      (fun r => cellIsin (rowGet r "_usuario_norm")
        (uniqueFirst [] ((f.rows.filterMap (fun r2 => rowGet r2 tipo)).map strNorm))))
    "_usuario_norm", ?_, filtrar_rows_eq d f cu tipo htmp⟩
  unfold filtrar_por_facturadores
  simp [hne, hnf, hcu, ht]

/-- C6 witness: Scenario 5 — five RIPS rows with resolved names, two of them
(EVA, ZOE) absent from a two-name roster; the three member rows survive. -/
theorem C6_roster_membership_filter_witness :
    ∃ out, filtrar_por_facturadores
        (some ⟨["USUARIO"],
          [[("USUARIO", some "ANA")], [("USUARIO", some "LUIS")], [("USUARIO", some "EVA")],
           [("USUARIO", some "ANA")], [("USUARIO", some "ZOE")]]⟩)
        (some ⟨["NOMBRE"], [[("NOMBRE", some "ANA")], [("NOMBRE", some "LUIS")]]⟩)
        (some "USUARIO") "NOMBRE" = some out ∧
      out.rows = (⟨["USUARIO"],
          [[("USUARIO", some "ANA")], [("USUARIO", some "LUIS")], [("USUARIO", some "EVA")],
           [("USUARIO", some "ANA")], [("USUARIO", some "ZOE")]]⟩ : DataFrame).rows.filter
        (fun r => decide (normCellStr (rowGet r "USUARIO")
          ∈ (((⟨["NOMBRE"], [[("NOMBRE", some "ANA")], [("NOMBRE", some "LUIS")]]⟩ :
              DataFrame).rows.filterMap (fun r2 => rowGet r2 "NOMBRE")).map strNorm))) :=
  C6_roster_membership_filter _ _ "USUARIO" "NOMBRE" (by decide) (by decide) (by decide)
    (by decide) (by decide)

theorem cols_fe_activa (d : DataFrame) : (fe_activa d).cols = d.cols := by
  unfold fe_activa
  by_cases h : (if "ESTADO" ∈ d.cols then "ESTADO" else "Estado") ∈ d.cols
  · rw [if_pos h, cols_filterRows]
  · rw [if_neg h]

theorem merge_missing_column (dFact dElec : DataFrame)
    (hne : dfEmpty dFact = false) (hnee : dfEmpty dElec = false)
    (hmiss : ¬ ("FACTURA" ∈ dElec.cols ∧ "USUARIO" ∈ dElec.cols ∧
      "NRO_FACTURACLI" ∈ dFact.cols)) :
    (merge_facturacion_with_electronica (some dFact) (some dElec)).result
      = some (normAllCols dFact) := by
  unfold merge_facturacion_with_electronica
  simp only [hne, Bool.false_eq_true, if_false, hnee]
  have hA : (fe_activa (normAllCols dElec)).cols = dElec.cols := by
    rw [cols_fe_activa, cols_normAllCols]
  have hR : (normAllCols dFact).cols = dFact.cols := cols_normAllCols dFact
  by_cases hfa : "FACTURA" ∈ dElec.cols ∧ "USUARIO" ∈ dElec.cols
  · have hnro : "NRO_FACTURACLI" ∉ dFact.cols := fun hn => hmiss ⟨hfa.1, hfa.2, hn⟩
    rw [if_pos (show "FACTURA" ∈ (fe_activa (normAllCols dElec)).cols
        ∧ "USUARIO" ∈ (fe_activa (normAllCols dElec)).cols by
      rw [hA]
      exact hfa)]
    rw [if_neg (show ¬ "NRO_FACTURACLI" ∈ (normAllCols dFact).cols by
      rw [hR]
      exact hnro)]
  · rw [if_neg (show ¬ ("FACTURA" ∈ (fe_activa (normAllCols dElec)).cols
        ∧ "USUARIO" ∈ (fe_activa (normAllCols dElec)).cols) by
      rw [hA]
      exact hfa)]

/-- C3 (amended): every null/empty-input case of the three identity-resolution
passes raises nothing and returns the target unchanged, and so do the
missing-column cases of the document-to-name pass and the membership filter;
the invoice-to-agent merge, however, does not return the target unchanged on
a missing required column: it returns the target with every text cell
normalized (trimmed and uppercased), still without raising. -/
theorem C3_defensive_failure :
    (∀ b, (merge_facturacion_with_electronica none b).result = none) ∧
    (∀ (d : DataFrame) (b : Option DataFrame), dfEmpty d = true →
      (merge_facturacion_with_electronica (some d) b).result = some d) ∧
    (∀ d : DataFrame, (merge_facturacion_with_electronica (some d) none).result = some d) ∧
    (∀ d e : DataFrame, dfEmpty e = true →
      (merge_facturacion_with_electronica (some d) (some e)).result = some d) ∧
    (∀ d e : DataFrame, dfEmpty d = false → dfEmpty e = false →
      ¬ ("FACTURA" ∈ e.cols ∧ "USUARIO" ∈ e.cols ∧ "NRO_FACTURACLI" ∈ d.cols) →
      (merge_facturacion_with_electronica (some d) (some e)).result
        = some (normAllCols d)) ∧
    (∀ b, (cruzar_documento_a_nombre none b).result = none) ∧
    (∀ (d : DataFrame) (b : Option DataFrame), dfEmpty d = true →
      (cruzar_documento_a_nombre (some d) b).result = some d) ∧
    (∀ d : DataFrame, dfEmpty d = false →
      (cruzar_documento_a_nombre (some d) none).result = some d) ∧
    (∀ d e : DataFrame, dfEmpty d = false → dfEmpty e = true →
      (cruzar_documento_a_nombre (some d) (some e)).result = some d) ∧
    (∀ d e : DataFrame, dfEmpty d = false → dfEmpty e = false →
      find_column_variant (some d) COLUMN_NAMES_usuario = none →
      (cruzar_documento_a_nombre (some d) (some e)).result = some d) ∧
    (∀ (d e : DataFrame) (u : String), dfEmpty d = false → dfEmpty e = false →
      find_column_variant (some d) COLUMN_NAMES_usuario = some u →
      ("DOCUMENTO" ∉ e.cols ∨ "NOMBRE" ∉ e.cols) →
      (cruzar_documento_a_nombre (some d) (some e)).result = some d) ∧
    (∀ (b : Option DataFrame) (cu : Option String) (t : String),
      filtrar_por_facturadores none b cu t = none) ∧
    (∀ (d : DataFrame) (b : Option DataFrame) (cu : Option String) (t : String),
      dfEmpty d = true → filtrar_por_facturadores (some d) b cu t = some d) ∧
    (∀ (d : DataFrame) (cu : Option String) (t : String), dfEmpty d = false →
      filtrar_por_facturadores (some d) none cu t = some d) ∧
    (∀ (d e : DataFrame) (cu : Option String) (t : String), dfEmpty d = false →
      dfEmpty e = true → filtrar_por_facturadores (some d) (some e) cu t = some d) ∧
    (∀ (d e : DataFrame) (t : String), dfEmpty d = false → dfEmpty e = false →
      filtrar_por_facturadores (some d) (some e) none t = some d) ∧
    (∀ (d e : DataFrame) (cu t : String), dfEmpty d = false → dfEmpty e = false →
      cu ∉ d.cols → filtrar_por_facturadores (some d) (some e) (some cu) t = some d) ∧
    (∀ (d e : DataFrame) (cu t : String), dfEmpty d = false → dfEmpty e = false →
      cu ∈ d.cols → t ∉ e.cols →
      filtrar_por_facturadores (some d) (some e) (some cu) t = some d) := by
  refine ⟨?_, ?_, ?_, ?_, ?_, ?_, ?_, ?_, ?_, ?_, ?_, ?_, ?_, ?_, ?_, ?_, ?_, ?_⟩
  · intro b
    rfl
  · intro d b h
    unfold merge_facturacion_with_electronica
    cases b
    all_goals simp [h]
  · intro d
    unfold merge_facturacion_with_electronica
    by_cases h : dfEmpty d
    all_goals simp [h]
  · intro d e h
    unfold merge_facturacion_with_electronica
    by_cases h2 : dfEmpty d
    all_goals simp [h, h2]
  · exact fun d e h1 h2 h3 => merge_missing_column d e h1 h2 h3
  · intro b
    rfl
  · intro d b h
    unfold cruzar_documento_a_nombre
    cases b
    all_goals simp [h]
  · intro d h
    unfold cruzar_documento_a_nombre
    simp [h]
  · intro d e h1 h2
    unfold cruzar_documento_a_nombre
    simp [h1, h2]
  · intro d e h1 h2 h3
    unfold cruzar_documento_a_nombre
    simp [h1, h2, h3]
  · intro d e u h1 h2 h3 h4
    unfold cruzar_documento_a_nombre
    simp only [h1, Bool.false_eq_true, if_false, h2, h3]
    rw [if_pos h4]
  · intro b cu t
    rfl
  · intro d b cu t h
    unfold filtrar_por_facturadores
    cases b
    all_goals simp [h]
  · intro d cu t h
    unfold filtrar_por_facturadores
    simp [h]
  · intro d e cu t h1 h2
    unfold filtrar_por_facturadores
    simp [h1, h2]
  · intro d e t h1 h2
    unfold filtrar_por_facturadores
    simp [h1, h2]
  · intro d e cu t h1 h2 h3
    unfold filtrar_por_facturadores
    simp [h1, h2, h3]
  · intro d e cu t h1 h2 h3 h4
    unfold filtrar_por_facturadores
    simp [h1, h2, h3, h4]

/-- C3 witness: the invoice-to-agent merge on a missing-column reference
returns the normalized target, and the document-to-name pass on the same
frames returns the target untouched. -/
theorem C3_defensive_failure_witness :
    (merge_facturacion_with_electronica
        (some ⟨["USUARIO"], [[("USUARIO", some "x")]]⟩)
        (some ⟨["X"], [[("X", some "y")]]⟩)).result
      = some (normAllCols ⟨["USUARIO"], [[("USUARIO", some "x")]]⟩) ∧
    (cruzar_documento_a_nombre
        (some ⟨["USUARIO"], [[("USUARIO", some "x")]]⟩)
        (some ⟨["X"], [[("X", some "y")]]⟩)).result
      = some ⟨["USUARIO"], [[("USUARIO", some "x")]]⟩ :=
  ⟨C3_defensive_failure.2.2.2.2.1 _ _ (by decide) (by decide) (by decide),
   C3_defensive_failure.2.2.2.2.2.2.2.2.2.2.1 _ _ "USUARIO" (by decide) (by decide)
     (by decide) (by decide)⟩

/-- C3 counterexample: reference table lacking the USUARIO column (a missing
required column), lowercase invoice number in the target: the merge returns a
changed table (the invoice normalized to "F1"), not the target unchanged. -/
theorem C3_missing_column_counterexample :
    (merge_facturacion_with_electronica
        (some ⟨["NRO_FACTURACLI"], [[("NRO_FACTURACLI", some "f1")]]⟩)
        (some ⟨["FACTURA"], [[("FACTURA", some "x")]]⟩)).result
      ≠ some ⟨["NRO_FACTURACLI"], [[("NRO_FACTURACLI", some "f1")]]⟩ := by
  decide

/-- C9: Aggregator count conservation: every aggregate_by_user output row has
CANTIDAD at least 1, the grouping keys are pairwise distinct, and the counts
sum to the number of input rows with a non-null grouping key (both in the
by-agent mode and in the by-(agent, day) mode). -/
theorem C9_aggregate_conservation :
    (∀ (dt : String → String) (d : DataFrame) (u : String) (dcOpt : Option String)
        (gbd : Bool) (l : List (String × Nat)),
      aggregate_by_user dt (some d) u dcOpt gbd = some (AggResult.byUser l) →
      (∀ p ∈ l, 1 ≤ p.2) ∧ (l.map Prod.fst).Nodup ∧
        (l.map Prod.snd).sum = (userKeysOf d u).length) ∧
    (∀ (dt : String → String) (d : DataFrame) (u dc : String) (gbd : Bool)
        (l : List ((String × String) × Nat)),
      aggregate_by_user dt (some d) u (some dc) gbd = some (AggResult.byUserDate l) →
      (∀ p ∈ l, 1 ≤ p.2) ∧ (l.map Prod.fst).Nodup ∧
        (l.map Prod.snd).sum = (userDateKeysOf dt d u dc).length) := by
  constructor
  · intro dt d u dcOpt gbd l heq
    unfold aggregate_by_user at heq
    by_cases hg : dfEmpty d = true ∨ u ∉ d.cols
    · simp [hg] at heq
    · simp only [hg, if_false] at heq
      cases dcOpt with
      | none =>
        simp only [Option.some.injEq, AggResult.byUser.injEq] at heq
        subst heq
        exact ⟨groupSorted_count_pos strLeKey _, groupSorted_keys_nodup strLeKey _,
          groupSorted_sum strLeKey _⟩
      | some dc =>
        dsimp only at heq
        by_cases hcond : gbd = true ∧ dc ≠ "" ∧ dc ∈ d.cols
        · rw [if_pos hcond] at heq
          exact absurd heq (by simp)
        · rw [if_neg hcond] at heq
          simp only [Option.some.injEq, AggResult.byUser.injEq] at heq
          subst heq
          exact ⟨groupSorted_count_pos strLeKey _, groupSorted_keys_nodup strLeKey _,
            groupSorted_sum strLeKey _⟩
  · intro dt d u dc gbd l heq
    unfold aggregate_by_user at heq
    by_cases hg : dfEmpty d = true ∨ u ∉ d.cols
    · simp [hg] at heq
    · simp only [hg, if_false] at heq
      by_cases hcond : gbd = true ∧ dc ≠ "" ∧ dc ∈ d.cols
      · rw [if_pos hcond] at heq
        simp only [Option.some.injEq, AggResult.byUserDate.injEq] at heq
        subst heq
        exact ⟨groupSorted_count_pos pairLeKey _, groupSorted_keys_nodup pairLeKey _,
          groupSorted_sum pairLeKey _⟩
      · rw [if_neg hcond] at heq
        exact absurd heq (by simp)

/-- C9 witness: three rows with agents b, a, b aggregate to counts a 1 and
b 2, distinct keys, summing to 3. -/
theorem C9_aggregate_conservation_witness :
    (∀ p ∈ [("a", 1), ("b", 2)], 1 ≤ p.2) ∧
    (([("a", 1), ("b", 2)].map Prod.fst).Nodup) ∧
    ([("a", 1), ("b", 2)].map Prod.snd).sum
      = (userKeysOf ⟨["U"], [[("U", some "b")], [("U", some "a")], [("U", some "b")]]⟩
          "U").length :=
  C9_aggregate_conservation.1 id
    ⟨["U"], [[("U", some "b")], [("U", some "a")], [("U", some "b")]]⟩
    "U" none false [("a", 1), ("b", 2)] (by decide)

/-- C8 (amended): copy-on-write holds for the targets of both
identity-resolution passes and for both arguments of the document-to-name
pass: for every call, cruzar_documento_a_nombre leaves the caller objects of
the target and the reference unchanged, and merge_facturacion_with_electronica
leaves the target object unchanged.  (The merge mutates its reference: see
the counterexample.) -/
theorem C8_copy_on_write :
    ∀ a b : Option DataFrame,
      (cruzar_documento_a_nombre a b).targetFinal = a ∧
      (cruzar_documento_a_nombre a b).refFinal = b ∧
      (merge_facturacion_with_electronica a b).targetFinal = a := by
  intro a b
  refine ⟨?_, ?_, ?_⟩
  · cases a with
    | none => rfl
    | some d =>
      unfold cruzar_documento_a_nombre
      by_cases h : dfEmpty d
      · simp [h]
      · cases b with
        | none => simp [h]
        | some e =>
          by_cases h2 : dfEmpty e
          · simp [h, h2]
          · cases hfind : find_column_variant (some d) COLUMN_NAMES_usuario with
            | none => simp [h, h2, hfind]
            | some u =>
              by_cases h3 : "DOCUMENTO" ∉ e.cols ∨ "NOMBRE" ∉ e.cols
              · simp [h, h2, hfind, h3]
              · simp [h, h2, hfind, h3]
  · cases a with
    | none => rfl
    | some d =>
      unfold cruzar_documento_a_nombre
      by_cases h : dfEmpty d
      · simp [h]
      · cases b with
        | none => simp [h]
        | some e =>
          by_cases h2 : dfEmpty e
          · simp [h, h2]
          · cases hfind : find_column_variant (some d) COLUMN_NAMES_usuario with
            | none => simp [h, h2, hfind]
            | some u =>
              by_cases h3 : "DOCUMENTO" ∉ e.cols ∨ "NOMBRE" ∉ e.cols
              · simp [h, h2, hfind, h3]
              · simp [h, h2, hfind, h3]
  · cases a with
    | none => rfl
    | some d =>
      unfold merge_facturacion_with_electronica
      by_cases h : dfEmpty d
      · simp [h]
      · cases b with
        | none => simp [h]
        | some e =>
          by_cases h2 : dfEmpty e
          · simp [h, h2]
          · simp [h, h2]

/-- C8 counterexample: merge_facturacion_with_electronica mutates the caller
reference object: its normalization loop writes the uppercased columns back
into df_fact_elec itself, so the reference comes back changed ("ana" became
"ANA", "activo" became "ACTIVO"). -/
theorem C8_reference_mutation_counterexample :
    (merge_facturacion_with_electronica
        (some ⟨["NRO_FACTURACLI"], [[("NRO_FACTURACLI", some "F1")]]⟩)
        (some ⟨["FACTURA", "USUARIO", "ESTADO"],
          [[("FACTURA", some "F1"), ("USUARIO", some "ana"),
            ("ESTADO", some "activo")]]⟩)).refFinal
      ≠ some ⟨["FACTURA", "USUARIO", "ESTADO"],
          [[("FACTURA", some "F1"), ("USUARIO", some "ana"),
            ("ESTADO", some "activo")]]⟩ := by
  decide

end DashboardFactu
